import Mathlib

/-!
Shallow embedding of the edition-based news selection pipeline of the
china-economy-news-analysis repository, covering
`src/collector/news_filter.py` (relevance filter and diversity-balanced
candidate selector) and `src/agents/daily_news_selector.py` (edition
scheduler over a SQLite store), together with proofs of the testable
properties stated in the specification.

Modelling conventions:
* Python strings are Lean `String`s; the substring operator `in` is modelled
  by containment of the character list of the needle in the character list of
  the haystack.
* Store timestamps have the textual format "YYYY-MM-DD HH:MM:SS"; they are
  modelled as a pair of a day index and a second-of-day, ordered
  lexicographically, which agrees with lexicographic comparison of the
  formatted strings.
* SQL expressions over nullable columns follow SQLite's three-valued logic:
  a SQL boolean is an `Option Bool` with `none` standing for NULL/UNKNOWN,
  and a WHERE clause accepts a row only if it evaluates to `some true`.
* Python's stable `list.sort(key=k, reverse=True)` is modelled by a stable
  insertion sort that places an element before the first already-placed
  element whose key is less than or equal to its own key.
-/

namespace NewsPipeline

open List

/-- Timestamp of the store format "YYYY-MM-DD HH:MM:SS": a day index (order
isomorphic to the calendar date) plus a second-of-day. -/
structure Timestamp where
  day : Nat
  sec : Nat
  deriving DecidableEq

/-- Lexicographic comparison of timestamps, matching lexicographic comparison
of their fixed-width textual forms. -/
def tsLe (a b : Timestamp) : Bool :=
  decide (a.day < b.day) || (decide (a.day = b.day) && decide (a.sec ≤ b.sec))

/-- Comparison of optional timestamps; a missing value behaves like the empty
string, which sorts before every formatted timestamp. -/
def optTsLe : Option Timestamp → Option Timestamp → Bool
  | none, _ => true
  | some _, none => false
  | some a, some b => tsLe a b

/-- SQL three-valued AND over nullable booleans (`none` is NULL/UNKNOWN). -/
def sqlAnd : Option Bool → Option Bool → Option Bool
  | some false, _ => some false
  | _, some false => some false
  | some true, some true => some true
  | _, _ => none

/-- SQL three-valued OR over nullable booleans. -/
def sqlOr : Option Bool → Option Bool → Option Bool
  | some true, _ => some true
  | _, some true => some true
  | some false, some false => some false
  | _, _ => none

/-- Containment of `needle` as a contiguous substring of `haystack`, the
model of Python's `needle in haystack` on strings. -/
def strContains (haystack needle : String) : Bool :=
  decide (needle.toList <:+: haystack.toList)

/-- EXCLUDED_KEYWORDS of news_filter.py. -/
def EXCLUDED_KEYWORDS : List String :=
  ["论评", "专栏", "社论", "观点", "评论", "投稿", "广告", "PR",
   "新闻稿", "赞助", "专题", "访谈", "座谈", "论坛", "活动", "开幕"]

/-- GOVERNMENT_ADMIN_KEYWORDS of news_filter.py. -/
def GOVERNMENT_ADMIN_KEYWORDS : List String :=
  ["人事任免", "干部", "党委", "组织部", "纪委",
   "关于印发", "办公厅关于", "工作方案", "管理办法",
   "人民政府办公", "通知如下", "现印发给你们"]

/-- CONCRETE_KEYWORDS of news_filter.py. -/
def CONCRETE_KEYWORDS : List String :=
  ["发布", "公布", "统计", "数据", "报告", "政策", "措施", "方案",
   "规定", "条例", "增长", "下降", "上涨", "下跌", "同比", "环比"]

/-- CATEGORIES of news_filter.py, an ordered association of the 7 fixed topic
categories with their keyword sets (Python dicts preserve insertion order). -/
def CATEGORIES : List (String × List String) :=
  [("정책", ["政策", "政府", "通知", "规划", "强制", "意见"]),
   ("거시경제", ["经济", "增长", "消费", "投资", "货币", "利率", "储蓄", "人口",
               "劳动", "出口", "进口", "贸易", "一带一路"]),
   ("산업", ["制造", "产业", "工业", "上游", "下游", "开发区", "产业园区"]),
   ("에너지", ["能源", "电力", "电池", "新能源", "太阳能", "光伏", "氢能",
             "核能", "核聚变", "钍能", "风能", "风电", "地热"]),
   ("금융", ["银行", "金融", "融资", "股票", "债券", "证券", "上市"]),
   ("기업", ["企业", "公司", "股", "高管", "并购", "股东", "项目"]),
   ("기술", ["技术", "科技", "AI", "机器人", "无人机", "智能制造", "生物",
           "自动驾驶", "超算", "量子", "航天", "新材料", "6G", "5G", "3D打印"])]

/-- SOURCE_PRIORITY of news_filter.py. -/
def SOURCE_PRIORITY : List (String × Nat) :=
  [("36kr", 10), ("caixin", 10), ("people", 9), ("ce", 9), ("stcn", 9),
   ("xinhua", 8), ("huxiu", 8), ("beijing_gov", 3), ("shanghai_gov", 3),
   ("shenzhen_gov", 3)]

/-- Dictionary lookup `SOURCE_PRIORITY.get(source, 5)`. -/
def sourcePriority (source : String) : Nat :=
  ((SOURCE_PRIORITY.find? (fun p => p.1 == source)).map Prod.snd).getD 5

/-- is_factual_news of news_filter.py: reject when the combined text contains
any opinion/column marker or any government-administrative-notice marker. -/
def is_factual_news (title content : String) : Bool :=
  let combined := title ++ content
  if EXCLUDED_KEYWORDS.any (fun kw => strContains combined kw) then false
  else if GOVERNMENT_ADMIN_KEYWORDS.any (fun kw => strContains combined kw) then false
  else true

/-- Model of `any(re.search(p, combined) for p in DATA_PATTERNS)` with
DATA_PATTERNS = [\d+%, \d+亿, \d+万, \d+兆, \d+元, \d+\.\d+%]: each pattern
\d+X has a match exactly when some digit is immediately followed by X, and a
match of \d+\.\d+% ends with a digit immediately followed by %, so the
disjunction holds exactly when some digit is immediately followed by one of
%, 亿, 万, 兆, 元.  Python's \d (Unicode decimal digits) is modelled by
`Char.isDigit`, adequate for the ASCII-digit text involved. -/
def hasDataPatternCore : List Char → Bool
  | c1 :: c2 :: rest =>
    (c1.isDigit && (c2 == '%' || c2 == '亿' || c2 == '万' || c2 == '兆' || c2 == '元'))
      || hasDataPatternCore (c2 :: rest)
  | _ => false

/-- Matching of any DATA_PATTERNS entry against a string. -/
def hasDataPattern (s : String) : Bool :=
  hasDataPatternCore s.toList

/-- has_analytical_value of news_filter.py. -/
def has_analytical_value (title content : String) : Bool :=
  let combined := title ++ content
  if strContains title "印发" && strContains title "办公" then false
  else if hasDataPattern combined then true
  else if 2 ≤ CONCRETE_KEYWORDS.countP (fun kw => strContains combined kw) then true
  else decide (15 < title.length)

/-- is_domestic_news of news_filter.py. -/
def is_domestic_news (title content : String) : Bool :=
  let combined := title ++ content
  let foreign := (["美国", "欧洲", "日本", "韩国", "东南亚", "国际"] :
      List String).countP (fun kw => strContains combined kw)
  let domestic := (["中国", "国内", "本土", "央行", "发改委", "工信部"] :
      List String).countP (fun kw => strContains combined kw)
  decide (foreign < domestic) || decide (foreign ≤ 1)

/-- Model of `max(scores.items(), key=lambda x: x[1])[0] if scores else
'기타'`: Python's `max` keeps the first maximal entry in iteration order, and
the fallback fires only on an empty score dict. -/
def maxFirst : List (String × Nat) → String
  | [] => "기타"
  | s :: rest => (rest.foldl (fun best x => if best.2 < x.2 then x else best) s).1

/-- categorize_news of news_filter.py: count keyword hits per category in
declaration order and take the first maximal category. -/
def categorize_news (title content : String) : String :=
  let combined := title ++ content
  maxFirst (CATEGORIES.map (fun p => (p.1, p.2.countP (fun kw => strContains combined kw))))

/-- News dictionary flowing through filter_news / balance_categories: the
persistent fields plus the three transient annotations, absent keys modelled
as `none` (string fields defaulted to "" at read time by the callers). -/
structure NewsItem where
  id : Nat
  original_title : String
  original_content : String
  published_at : Option Timestamp
  source : String
  category : Option String
  is_domestic : Option Bool
  priority_score : Option Nat
  deriving DecidableEq

/-- Conjunction of the two gates applied sequentially by filter_news. -/
def passes_gates (n : NewsItem) : Bool :=
  is_factual_news n.original_title n.original_content &&
    has_analytical_value n.original_title n.original_content

/-- Annotation step of filter_news: write category, is_domestic and
priority_score into the record. -/
def annotate (n : NewsItem) : NewsItem :=
  let isDom := is_domestic_news n.original_title n.original_content
  { n with
    category := some (categorize_news n.original_title n.original_content)
    is_domestic := some isDom
    priority_score := some (sourcePriority n.source + (if isDom then 5 else 0)) }

/-- filter_news of news_filter.py: keep, in order, the records passing both
gates, each annotated in place. -/
def filter_news : List NewsItem → List NewsItem
  | [] => []
  | n :: rest =>
    if passes_gates n then annotate n :: filter_news rest
    else filter_news rest

/-- Stable insertion of `x` into an already descending-sorted list: `x` is
placed before the first element whose key is less than or equal to its own,
so earlier input elements stay before later ones on equal keys. -/
def insertDescBy (le : α → α → Bool) (x : α) : List α → List α
  | [] => [x]
  | y :: ys => if le y x then x :: y :: ys else y :: insertDescBy le x ys

/-- Model of Python's stable `list.sort(key=k, reverse=True)`: a stable
insertion sort into descending key order, `le a b` reading "key of `a` is
less than or equal to key of `b`". -/
def sortDescBy (le : α → α → Bool) : List α → List α
  | [] => []
  | x :: xs => insertDescBy le x (sortDescBy le xs)

/-- Sort key `(priority_score, published_at)` used by balance_categories,
with the Python dict defaults 0 and "". -/
def sortKey (n : NewsItem) : Nat × Option Timestamp :=
  (n.priority_score.getD 0, n.published_at)

/-- Comparison of sort keys: `a` less than or equal to `b` under Python's
tuple order. -/
def keyLe (a b : Nat × Option Timestamp) : Bool :=
  decide (a.1 < b.1) || (decide (a.1 = b.1) && optTsLe a.2 b.2)

/-- The `.sort(key=lambda x: (priority_score, published_at), reverse=True)`
call of balance_categories. -/
def sortNews (l : List NewsItem) : List NewsItem :=
  sortDescBy (fun a b => keyLe (sortKey a) (sortKey b)) l

/-- Category dictionary `by_category`: association list whose keys appear in
order of first insertion, as Python dicts iterate. -/
abbrev Groups := List (String × List NewsItem)

/-- Append one record to its category's group, creating the group at the end
on a fresh key (defaultdict(list) insertion semantics). -/
def addToGroups : Groups → String → NewsItem → Groups
  | [], c, n => [(c, [n])]
  | g :: rest, c, n =>
    if g.1 = c then (g.1, g.2 ++ [n]) :: rest
    else g :: addToGroups rest c n

/-- Build `by_category` from the input list, keys in first-appearance order,
each record keyed by `news.get('category', '기타')`. -/
def groupByCategory (l : List NewsItem) : Groups :=
  l.foldl (fun groups n => addToGroups groups (n.category.getD "기타") n) []

/-- Lookup `by_category[c]`; a missing key denotes the empty group
(defaultdict also records the fresh empty group in the dict, which leaves
every later read unchanged, so the insertion is not modelled). -/
def lookupGroup : Groups → String → List NewsItem
  | [], _ => []
  | g :: rest, c => if g.1 = c then g.2 else lookupGroup rest c

/-- The `by_category[c].remove(n)` call: drop the first occurrence equal to
`n` from group `c`. -/
def eraseInGroup : Groups → String → NewsItem → Groups
  | [], _, _ => []
  | g :: rest, c, n =>
    if g.1 = c then (g.1, g.2.erase n) :: rest
    else g :: eraseInGroup rest c n

/-- Inner scan of phase 1: first record of the group whose source has fewer
than 2 selections so far. -/
def findSelectable (bySource : String → Nat) : List NewsItem → Option NewsItem
  | [] => none
  | n :: rest =>
    if bySource n.source < 2 then some n else findSelectable bySource rest

/-- The `by_source[s] = by_source.get(s, 0) + 1` update. -/
def bump (bySource : String → Nat) (s : String) : String → Nat :=
  fun s' => if s' = s then bySource s' + 1 else bySource s'

/-- The fixed main_categories list of balance_categories. -/
def main_categories : List String :=
  ["정책", "거시경제", "산업", "에너지", "금융", "기업", "기술"]

/-- State left by phase 1 of balance_categories: the picks so far, the
remaining groups, the per-source tally, and whether the early
`return selected` fired. -/
structure Phase1Result where
  selected : List NewsItem
  groups : Groups
  bySource : String → Nat
  earlyReturn : Bool

/-- Phase 1 of balance_categories: walk the main categories in order, pick
from each nonempty group the first record whose source tally is below 2, and
return early as soon as the selection reaches target_count. -/
def phase1 (target : Nat) :
    List String → Groups → List NewsItem → (String → Nat) → Phase1Result
  | [], groups, sel, src => ⟨sel, groups, src, false⟩
  | c :: cats, groups, sel, src =>
    let g := lookupGroup groups c
    if g.isEmpty then phase1 target cats groups sel src
    else
      match findSelectable src g with
      | some n =>
        let sel' := sel ++ [n]
        let groups' := eraseInGroup groups c n
        let src' := bump src n.source
        if target ≤ sel'.length then ⟨sel', groups', src', true⟩
        else phase1 target cats groups' sel' src'
      | none =>
        if target ≤ sel.length then ⟨sel, groups, src, true⟩
        else phase1 target cats groups sel src

/-- Phase 2 of balance_categories: pour the pooled remainder in sorted order,
skipping records whose source tally has reached 3, stopping at
target_count. -/
def phase2 (target : Nat) :
    List NewsItem → List NewsItem → (String → Nat) → List NewsItem
  | [], sel, _ => sel
  | n :: rest, sel, src =>
    if target ≤ sel.length then sel
    else if src n.source < 3 then phase2 target rest (sel ++ [n]) (bump src n.source)
    else phase2 target rest sel src

/-- Concatenation of all group contents in dict iteration order, the
`for cat_news in by_category.values(): remaining.extend(cat_news)` loop. -/
def flattenGroups (groups : Groups) : List NewsItem :=
  (groups.map Prod.snd).flatten

/-- Grouping plus per-group sorting performed before phase 1. -/
def initialGroups (l : List NewsItem) : Groups :=
  (groupByCategory l).map (fun g => (g.1, sortNews g.2))

/-- The phase-1 run performed inside balance_categories for input `l`. -/
def phase1Run (l : List NewsItem) (target : Nat) : Phase1Result :=
  phase1 target main_categories (initialGroups l) [] (fun _ => 0)

/-- balance_categories of news_filter.py. -/
def balance_categories (news_list : List NewsItem) (target_count : Nat) : List NewsItem :=
  let p := phase1Run news_list target_count
  if p.earlyReturn then p.selected
  else if p.selected.length < target_count then
    (phase2 target_count (sortNews (flattenGroups p.groups)) p.selected p.bySource).take
      target_count
  else p.selected.take target_count

/-- The three editions, the keys of EDITION_CONFIG. -/
inductive Edition
  | morning
  | afternoon
  | evening
  deriving DecidableEq

/-- One EDITION_CONFIG entry: label, headline title, and the article
eligibility window boundaries as seconds of day. -/
structure EditionConfig where
  label : String
  title : String
  startSec : Nat
  endSec : Nat

/-- EDITION_CONFIG of daily_news_selector.py; `time(h, m, s)` is rendered as
`h*3600 + m*60 + s` seconds of day. -/
def EDITION_CONFIG : Edition → EditionConfig
  | .morning => ⟨"오전판", "오늘 오전 뉴스 헤드라인", 0, 6 * 3600 + 59 * 60 + 59⟩
  | .afternoon => ⟨"오후판", "오늘 오후 뉴스 헤드라인", 7 * 3600, 13 * 3600 + 59 * 60 + 59⟩
  | .evening => ⟨"저녁/반판", "오늘 밤 뉴스 헤드라인", 14 * 3600, 21 * 3600 + 59 * 60 + 59⟩

/-- get_current_edition: pick the edition from the wall-clock time of day. -/
def get_current_edition (now : Timestamp) : Edition :=
  if now.sec < 7 * 3600 then .morning
  else if now.sec < 14 * 3600 then .afternoon
  else .evening

/-- get_edition_time_window: the (start, end) timestamp pair of the edition's
article window on the target date. -/
def get_edition_time_window (edition : Edition) (targetDate : Nat) :
    Timestamp × Timestamp :=
  (⟨targetDate, (EDITION_CONFIG edition).startSec⟩,
   ⟨targetDate, (EDITION_CONFIG edition).endSec⟩)

/-- Row of the `news` table with the columns the selector touches; nullable
columns are `Option`s. -/
structure NewsRow where
  id : Nat
  source : Option String
  original_title : Option String
  original_content : Option String
  translated_title : Option String
  importance_score : Option ℚ
  published_at : Option Timestamp
  analyzed_at : Option Timestamp
  expert_review_status : Option String
  edition : Option String
  updated_at : Option Timestamp
  deriving DecidableEq

/-- SQL `col = 'lit'` over a nullable text column: NULL compares to
UNKNOWN. -/
def sqlEqStr (col : Option String) (lit : String) : Option Bool :=
  col.map (fun s => decide (s = lit))

/-- SQL `col != 'lit'` over a nullable text column: NULL compares to
UNKNOWN. -/
def sqlNeStr (col : Option String) (lit : String) : Option Bool :=
  col.map (fun s => decide (s ≠ lit))

/-- SQL `col IS NULL`, which is total. -/
def sqlIsNull (col : Option String) : Option Bool :=
  some col.isNone

/-- SQL `col IS NOT NULL` over a timestamp column, which is total. -/
def sqlNotNullTs (col : Option Timestamp) : Option Bool :=
  some col.isSome

/-- SQL `col >= bound` over a nullable timestamp column. -/
def sqlGeTs (col : Option Timestamp) (bound : Timestamp) : Option Bool :=
  col.map (fun t => tsLe bound t)

/-- SQL `col <= bound` over a nullable timestamp column. -/
def sqlLeTs (col : Option Timestamp) (bound : Timestamp) : Option Bool :=
  col.map (fun t => tsLe t bound)

/-- SQL `col <= q` over a nullable numeric column. -/
def sqlLeNum (col : Option ℚ) (q : ℚ) : Option Bool :=
  col.map (fun x => decide (x ≤ q))

/-- SQL `col NOT IN (l)` over a nullable text column. -/
def sqlNotIn (col : Option String) (l : List String) : Option Bool :=
  col.map (fun s => !(l.contains s))

/-- excluded_sources of get_eligible_candidates. -/
def excluded_sources : List String :=
  ["ndrc", "pboc", "mofcom", "nbs", "gov", "xinhuanet"]

/-- WHERE clause of the get_eligible_candidates query under SQLite's
three-valued logic, for the window [ws, we]. -/
def eligibleWhere (ws we : Timestamp) (r : NewsRow) : Option Bool :=
  sqlAnd (sqlNotNullTs r.analyzed_at)
    (sqlAnd (sqlOr (sqlEqStr r.expert_review_status "none")
        (sqlIsNull r.expert_review_status))
      (sqlAnd (sqlNeStr r.expert_review_status "skipped")
        (sqlAnd (sqlNotNullTs r.published_at)
          (sqlAnd (sqlGeTs r.published_at ws)
            (sqlAnd (sqlLeTs r.published_at we)
              (sqlAnd (sqlIsNull r.edition)
                (sqlAnd (sqlLeNum r.importance_score 1)
                  (sqlAnd (some (!((r.translated_title.getD "") == "")))
                    (sqlNotIn r.source excluded_sources)))))))))

/-- Conversion of a fetched row into the candidate dict built by
get_eligible_candidates, with its `or ''` defaults. -/
def rowToItem (r : NewsRow) : NewsItem :=
  { id := r.id
    original_title := r.original_title.getD ""
    original_content := r.original_content.getD ""
    published_at := r.published_at
    source := r.source.getD ""
    category := none
    is_domestic := none
    priority_score := none }

/-- get_eligible_candidates of daily_news_selector.py: rows accepted by the
WHERE clause for today's edition window, ordered by published_at descending,
converted to candidate dicts. -/
def get_eligible_candidates (today : Nat) (edition : Edition)
    (rows : List NewsRow) : List NewsItem :=
  let w := get_edition_time_window edition today
  let hits := rows.filter (fun r => eligibleWhere w.1 w.2 r == some true)
  (sortDescBy (fun a b => optTsLe a.published_at b.published_at) hits).map rowToItem

/-- select_edition_news of daily_news_selector.py: fetch, short-circuit on an
empty candidate list, then filter_news and balance_categories, returning the
selected ids. -/
def select_edition_news (today : Nat) (edition : Edition) (rows : List NewsRow)
    (target_count : Nat) : List Nat :=
  let candidates := get_eligible_candidates today edition rows
  if candidates.isEmpty then []
  else (balance_categories (filter_news candidates) target_count).map NewsItem.id

/-- Edition column value written at commit time. -/
def editionName : Edition → String
  | .morning => "morning"
  | .afternoon => "afternoon"
  | .evening => "evening"

/-- update_selected_status of daily_news_selector.py: for an empty id list
return 0 and touch nothing; otherwise stamp status, edition and updated_at on
the ids and report the rowcount. -/
def update_selected_status (news_ids : List Nat) (edition : Edition)
    (now : Timestamp) (rows : List NewsRow) : List NewsRow × Nat :=
  if news_ids.isEmpty then (rows, 0)
  else
    (rows.map (fun r =>
        if news_ids.contains r.id then
          { r with
            expert_review_status := some "queued_today"
            edition := some (editionName edition)
            updated_at := some now }
        else r),
     rows.countP (fun r => news_ids.contains r.id))

/-- Per-row condition of the reset_stale_queue UPDATE:
`expert_review_status = 'queued_today' AND DATE(updated_at) < today`
(UNKNOWN on a NULL column does not fire). -/
def staleCond (today : Nat) (r : NewsRow) : Bool :=
  r.expert_review_status == some "queued_today" &&
    (match r.updated_at with
     | some u => decide (u.day < today)
     | none => false)

/-- Per-row effect of reset_stale_queue on a stale row. -/
def resetRow (now : Timestamp) (r : NewsRow) : NewsRow :=
  { r with
    expert_review_status := some "none"
    edition := none
    updated_at := some now }

/-- Per-row step of reset_stale_queue. -/
def resetStep (now : Timestamp) (r : NewsRow) : NewsRow :=
  if staleCond now.day r then resetRow now r else r

/-- reset_stale_queue of daily_news_selector.py: reset every stale
queued_today row, reporting the rowcount. -/
def reset_stale_queue (now : Timestamp) (rows : List NewsRow) :
    List NewsRow × Nat :=
  (rows.map (resetStep now), rows.countP (staleCond now.day))

/-- Summary dict returned by run_edition_selection. -/
structure Summary where
  edition : Edition
  label : String
  reset_count : Nat
  selected_count : Nat
  updated_count : Nat
  selected_ids : List Nat
  timestamp : Timestamp
  deriving DecidableEq

/-- run_edition_selection of daily_news_selector.py, the store state passed
and returned explicitly and the wall clock fixed at `now`: reset the stale
queue, select for the edition (defaulted from the clock), commit the
selection, and report the summary. -/
def run_edition_selection (editionArg : Option Edition) (now : Timestamp)
    (rows : List NewsRow) : List NewsRow × Summary :=
  let edition := editionArg.getD (get_current_edition now)
  let afterReset := reset_stale_queue now rows
  let selected_ids := select_edition_news now.day edition afterReset.1 10
  let afterUpdate := update_selected_status selected_ids edition now afterReset.1
  (afterUpdate.1,
   { edition := edition
     label := (EDITION_CONFIG edition).label
     reset_count := afterReset.2
     selected_count := selected_ids.length
     updated_count := afterUpdate.2
     selected_ids := selected_ids
     timestamp := now })

/-- Window test over published_at induced by get_edition_time_window, the
comparison pair of the fetch query. -/
def inEditionWindow (edition : Edition) (d : Nat) (ts : Timestamp) : Bool :=
  tsLe (get_edition_time_window edition d).1 ts &&
    tsLe ts (get_edition_time_window edition d).2

/-- Number of records of a list carrying the given source. -/
def countSrc (s : String) (l : List NewsItem) : Nat :=
  l.countP (fun n => decide (n.source = s))

/-- Fixture: candidate already annotated with category 정책, source "s". -/
def sameSourceItem (i : Nat) : NewsItem :=
  ⟨i, "", "", none, "s", some "정책", none, none⟩

/-- Fixture: the four-candidate single-source input list. -/
def sameSourceList : List NewsItem :=
  [sameSourceItem 1, sameSourceItem 2, sameSourceItem 3, sameSourceItem 4]

/-- Fixture: unannotated record whose 16-character title passes both
gates. -/
def plainItem : NewsItem :=
  ⟨3, "abcdefghijklmnop", "", none, "", none, none, none⟩

/-- Fixture: store row satisfying every eligibility condition of the morning
window of day 100 except that expert_review_status is NULL. -/
def nullStatusRow : NewsRow :=
  { id := 7
    source := some "caixin"
    original_title := some "T"
    original_content := some "C"
    translated_title := some "번역"
    importance_score := some (Rat.mk' 1 2 (by decide) (by decide))
    published_at := some ⟨100, 3600⟩
    analyzed_at := some ⟨100, 7200⟩
    expert_review_status := none
    edition := none
    updated_at := some ⟨100, 7200⟩ }

/-- Fixture: the same row with the explicit 'none' sentinel status. -/
def noneStatusRow : NewsRow :=
  { nullStatusRow with expert_review_status := some "none" }

/-- Fixture: row eligible for the afternoon edition of day 100. -/
def afternoonRow : NewsRow :=
  { nullStatusRow with
    expert_review_status := some "none"
    published_at := some ⟨100, 10 * 3600⟩ }

/-- Fixture: queued_today row last updated on day 100. -/
def todayQueuedRow : NewsRow :=
  { nullStatusRow with
    expert_review_status := some "queued_today"
    edition := some "morning"
    updated_at := some ⟨100, 50⟩ }

section PermLemmas

variable {α : Type}

lemma insertDescBy_perm (le : α → α → Bool) (x : α) :
    ∀ l : List α, insertDescBy le x l ~ x :: l
  | [] => List.Perm.refl _
  | y :: ys => by
    rw [insertDescBy]
    split
    · exact List.Perm.refl _
    · exact ((insertDescBy_perm le x ys).cons y).trans (List.Perm.swap x y ys)

lemma sortDescBy_perm (le : α → α → Bool) :
    ∀ l : List α, sortDescBy le l ~ l
  | [] => List.Perm.refl _
  | x :: xs =>
    (insertDescBy_perm le x (sortDescBy le xs)).trans
      ((sortDescBy_perm le xs).cons x)

end PermLemmas

lemma sortNews_perm (l : List NewsItem) : sortNews l ~ l :=
  sortDescBy_perm _ l

lemma flattenGroups_nil : flattenGroups [] = [] := rfl

lemma flattenGroups_cons (g : String × List NewsItem) (rest : Groups) :
    flattenGroups (g :: rest) = g.2 ++ flattenGroups rest := by
  simp [flattenGroups]

lemma flatten_addToGroups :
    ∀ (groups : Groups) (c : String) (n : NewsItem),
      flattenGroups (addToGroups groups c n) ~ flattenGroups groups ++ [n]
  | [], c, n => by simp [addToGroups, flattenGroups]
  | g :: rest, c, n => by
    rw [addToGroups]
    split
    · rw [flattenGroups_cons, flattenGroups_cons, List.append_assoc, List.append_assoc]
      exact List.Perm.append_left g.2 (List.perm_append_comm)
    · rw [flattenGroups_cons, flattenGroups_cons, List.append_assoc]
      exact List.Perm.append_left g.2 (flatten_addToGroups rest c n)

lemma flatten_groupFold :
    ∀ (l : List NewsItem) (groups : Groups),
      flattenGroups
          (l.foldl (fun gs n => addToGroups gs (n.category.getD "기타") n) groups) ~
        flattenGroups groups ++ l
  | [], groups => by simp
  | n :: rest, groups => by
    rw [List.foldl_cons]
    refine (flatten_groupFold rest _).trans ?_
    refine ((flatten_addToGroups groups _ n).append_right rest).trans ?_
    rw [List.append_assoc]
    exact List.Perm.refl _

lemma flatten_groupByCategory (l : List NewsItem) :
    flattenGroups (groupByCategory l) ~ l := by
  simpa [groupByCategory] using flatten_groupFold l []

lemma flatten_sortGroups :
    ∀ groups : Groups,
      flattenGroups (groups.map (fun g => (g.1, sortNews g.2))) ~ flattenGroups groups
  | [] => List.Perm.refl _
  | g :: rest => by
    rw [List.map_cons, flattenGroups_cons, flattenGroups_cons]
    exact (sortNews_perm g.2).append (flatten_sortGroups rest)

lemma flatten_initialGroups (l : List NewsItem) :
    flattenGroups (initialGroups l) ~ l :=
  (flatten_sortGroups (groupByCategory l)).trans (flatten_groupByCategory l)

lemma findSelectable_mem (src : String → Nat) :
    ∀ (g : List NewsItem) (n : NewsItem),
      findSelectable src g = some n → n ∈ g ∧ src n.source < 2
  | [], n, h => by simp [findSelectable] at h
  | m :: rest, n, h => by
    rw [findSelectable] at h
    split at h
    · cases h
      exact ⟨List.mem_cons_self _ _, by assumption⟩
    · have := findSelectable_mem src rest n h
      exact ⟨List.mem_cons_of_mem m this.1, this.2⟩

lemma eraseInGroup_perm :
    ∀ (groups : Groups) (c : String) (n : NewsItem),
      n ∈ lookupGroup groups c →
      n :: flattenGroups (eraseInGroup groups c n) ~ flattenGroups groups
  | [], c, n, h => by simp [lookupGroup] at h
  | g :: rest, c, n, h => by
    rw [lookupGroup] at h
    rw [eraseInGroup]
    split
    · rename_i hc
      rw [if_pos hc] at h
      rw [flattenGroups_cons, flattenGroups_cons]
      have : n :: (g.2.erase n ++ flattenGroups rest) =
          (n :: g.2.erase n) ++ flattenGroups rest := rfl
      rw [this]
      exact (List.perm_cons_erase h).symm.append_right (flattenGroups rest)
    · rename_i hc
      rw [if_neg hc] at h
      rw [flattenGroups_cons, flattenGroups_cons]
      refine List.Perm.trans ?_ (List.Perm.append_left g.2 (eraseInGroup_perm rest c n h))
      exact List.perm_middle.symm

lemma phase1_perm (t : Nat) :
    ∀ (cats : List String) (groups : Groups) (sel : List NewsItem)
      (src : String → Nat),
      (phase1 t cats groups sel src).selected ++
          flattenGroups (phase1 t cats groups sel src).groups ~
        sel ++ flattenGroups groups
  | [], groups, sel, src => by
    rw [phase1]
  | c :: cats, groups, sel, src => by
    rw [phase1]
    split
    · exact phase1_perm t cats groups sel src
    · cases hfind : findSelectable src (lookupGroup groups c) with
      | none =>
        dsimp only
        split
        · exact List.Perm.refl _
        · exact phase1_perm t cats groups sel src
      | some n =>
        dsimp only
        have hmem := (findSelectable_mem src _ n hfind).1
        have hkey : (sel ++ [n]) ++ flattenGroups (eraseInGroup groups c n) ~
            sel ++ flattenGroups groups := by
          rw [List.append_assoc]
          refine List.Perm.append_left sel ?_
          exact eraseInGroup_perm groups c n hmem
        split
        · exact hkey
        · exact (phase1_perm t cats _ _ _).trans hkey

lemma phase2_extra (t : Nat) :
    ∀ (rem sel : List NewsItem) (src : String → Nat),
      ∃ extra, phase2 t rem sel src = sel ++ extra ∧ extra <+ rem
  | [], sel, src => ⟨[], by simp [phase2]⟩
  | n :: rest, sel, src => by
    rw [phase2]
    split
    · exact ⟨[], by simp, List.nil_sublist _⟩
    · split
      · obtain ⟨extra, heq, hsub⟩ := phase2_extra t rest (sel ++ [n]) (bump src n.source)
        exact ⟨n :: extra, by rw [heq, List.append_assoc]; rfl,
          hsub.cons₂ n⟩
      · obtain ⟨extra, heq, hsub⟩ := phase2_extra t rest sel src
        exact ⟨extra, heq, hsub.cons n⟩

lemma balance_subperm_aux (l : List NewsItem) (t : Nat) :
    balance_categories l t <+~ l := by
  have hperm : (phase1Run l t).selected ++ flattenGroups (phase1Run l t).groups ~ l := by
    refine (phase1_perm t main_categories (initialGroups l) [] (fun _ => 0)).trans ?_
    simpa using flatten_initialGroups l
  rw [balance_categories]
  split
  · exact ((List.sublist_append_left _ _).subperm).trans hperm.subperm
  · split
    · obtain ⟨extra, heq, hsub⟩ :=
        phase2_extra t (sortNews (flattenGroups (phase1Run l t).groups))
          (phase1Run l t).selected (phase1Run l t).bySource
      rw [heq]
      refine ((List.take_sublist _ _).subperm).trans ?_
      refine List.Subperm.trans ?_ hperm.subperm
      rw [List.subperm_append_left]
      exact (hsub.subperm).trans (sortNews_perm _).subperm
    · refine ((List.take_sublist _ _).subperm).trans ?_
      exact ((List.sublist_append_left _ _).subperm).trans hperm.subperm

lemma countSrc_append (s : String) (l1 l2 : List NewsItem) :
    countSrc s (l1 ++ l2) = countSrc s l1 + countSrc s l2 := by
  simp [countSrc]

lemma countSrc_singleton (s : String) (n : NewsItem) :
    countSrc s [n] = if n.source = s then 1 else 0 := by
  simp [countSrc, List.countP_cons]

lemma countSrc_sublist {l1 l2 : List NewsItem} (h : l1 <+ l2) (s : String) :
    countSrc s l1 ≤ countSrc s l2 := by
  rw [countSrc, countSrc]
  exact List.Sublist.countP_le _ h

lemma bump_inv (cap : Nat) (sel : List NewsItem) (n : NewsItem)
    (src : String → Nat) (h : ∀ s, countSrc s sel ≤ src s ∧ src s ≤ cap)
    (hlt : src n.source < cap) :
    ∀ s, countSrc s (sel ++ [n]) ≤ bump src n.source s ∧
      bump src n.source s ≤ cap := by
  intro s
  have hs := h s
  rw [countSrc_append, countSrc_singleton, bump]
  by_cases hns : n.source = s
  · have hlt' : src s < cap := hns ▸ hlt
    rw [if_pos hns, if_pos hns.symm]
    exact ⟨by omega, by omega⟩
  · rw [if_neg hns, if_neg (fun hh => hns hh.symm)]
    exact ⟨by omega, hs.2⟩

lemma phase1_inv (t : Nat) :
    ∀ (cats : List String) (groups : Groups) (sel : List NewsItem)
      (src : String → Nat),
      (∀ s, countSrc s sel ≤ src s ∧ src s ≤ 2) →
      ∀ s, countSrc s (phase1 t cats groups sel src).selected ≤
            (phase1 t cats groups sel src).bySource s ∧
          (phase1 t cats groups sel src).bySource s ≤ 2
  | [], groups, sel, src, h => by rw [phase1]; exact h
  | c :: cats, groups, sel, src, h => by
    rw [phase1]
    split
    · exact phase1_inv t cats groups sel src h
    · cases hfind : findSelectable src (lookupGroup groups c) with
      | none =>
        dsimp only
        split
        · exact h
        · exact phase1_inv t cats groups sel src h
      | some n =>
        dsimp only
        have h' := bump_inv 2 sel n src h (findSelectable_mem src _ n hfind).2
        split
        · exact h'
        · exact phase1_inv t cats _ _ _ h'

lemma phase2_inv (t : Nat) :
    ∀ (rem sel : List NewsItem) (src : String → Nat),
      (∀ s, countSrc s sel ≤ src s ∧ src s ≤ 3) →
      ∀ s, countSrc s (phase2 t rem sel src) ≤ 3
  | [], sel, src, h => fun s => le_trans (h s).1 (h s).2
  | n :: rest, sel, src, h => by
    rw [phase2]
    split
    · exact fun s => le_trans (h s).1 (h s).2
    · split
      · exact phase2_inv t rest _ _ (bump_inv 3 sel n src h (by assumption))
      · exact phase2_inv t rest sel src h

lemma phase1Run_inv (l : List NewsItem) (t : Nat) :
    ∀ s, countSrc s (phase1Run l t).selected ≤ (phase1Run l t).bySource s ∧
      (phase1Run l t).bySource s ≤ 2 := by
  rw [phase1Run]
  exact phase1_inv t main_categories (initialGroups l) [] (fun _ => 0)
    (fun s => ⟨Nat.le_refl 0, Nat.zero_le 2⟩)

lemma annotate_annotate (n : NewsItem) : annotate (annotate n) = annotate n := rfl

lemma passes_gates_annotate (n : NewsItem) :
    passes_gates (annotate n) = passes_gates n := rfl

lemma filter_news_eq_filterMap (l : List NewsItem) :
    filter_news l = (l.filter passes_gates).map annotate := by
  induction l with
  | nil => rfl
  | cons n rest ih =>
    rw [filter_news, List.filter_cons]
    by_cases h : passes_gates n = true
    · rw [if_pos h, if_pos h, List.map_cons, ih]
    · rw [if_neg h, if_neg h, ih]

lemma filter_news_idem (l : List NewsItem) :
    filter_news (filter_news l) = filter_news l := by
  induction l with
  | nil => rfl
  | cons n rest ih =>
    rw [filter_news]
    by_cases h : passes_gates n = true
    · rw [if_pos h, filter_news, passes_gates_annotate, if_pos h,
        annotate_annotate, ih]
    · rw [if_neg h, ih]

lemma filter_news_annotations (l : List NewsItem) :
    ∀ n ∈ filter_news l,
      n.category = some (categorize_news n.original_title n.original_content) ∧
      n.is_domestic = some (is_domestic_news n.original_title n.original_content) ∧
      n.priority_score = some (sourcePriority n.source +
        (if is_domestic_news n.original_title n.original_content then 5 else 0)) := by
  intro n hn
  rw [filter_news_eq_filterMap] at hn
  obtain ⟨m, hm, rfl⟩ := List.mem_map.mp hn
  exact ⟨rfl, rfl, rfl⟩

lemma foldl_keeps_first (s : String × Nat) :
    ∀ rest : List (String × Nat), (∀ x ∈ rest, x.2 ≤ s.2) →
      rest.foldl (fun best x => if best.2 < x.2 then x else best) s = s
  | [], _ => rfl
  | x :: rest, h => by
    rw [List.foldl_cons, if_neg (Nat.not_lt.mpr (h x (List.mem_cons_self x rest)))]
    exact foldl_keeps_first s rest (fun y hy => h y (List.mem_cons_of_mem x hy))

lemma maxFirst_zero_cats (f : String × List String → String × Nat)
    (hf : ∀ p, (f p).1 = p.1) (h0 : ∀ p ∈ CATEGORIES, (f p).2 = 0) :
    maxFirst (CATEGORIES.map f) = "정책" := by
  rw [CATEGORIES, List.map_cons, maxFirst, foldl_keeps_first]
  · exact hf _
  · intro x hx
    obtain ⟨p, hp, rfl⟩ := List.mem_map.mp hx
    have hmem : p ∈ CATEGORIES := by
      rw [CATEGORIES]
      exact List.mem_cons_of_mem _ hp
    rw [h0 p hmem]
    exact Nat.zero_le _

lemma sqlAnd_some_true (a b : Option Bool) :
    sqlAnd a b = some true ↔ a = some true ∧ b = some true := by
  rcases a with _ | (_ | _) <;> rcases b with _ | (_ | _) <;> simp [sqlAnd]

lemma eligibleWhere_window (ws we : Timestamp) (r : NewsRow)
    (h : eligibleWhere ws we r = some true) :
    ∃ ts, r.published_at = some ts ∧ tsLe ws ts = true ∧ tsLe ts we = true := by
  rw [eligibleWhere] at h
  simp only [sqlAnd_some_true] at h
  obtain ⟨-, -, -, -, h5, h6, -, -, -, -⟩ := h
  cases hp : r.published_at with
  | none => rw [hp] at h5; simp [sqlGeTs] at h5
  | some ts =>
    rw [hp] at h5 h6
    refine ⟨ts, rfl, ?_, ?_⟩
    · simpa [sqlGeTs] using h5
    · simpa [sqlLeTs] using h6

lemma inEditionWindow_iff (e : Edition) (d : Nat) (ts : Timestamp) :
    inEditionWindow e d ts = true ↔
      ts.day = d ∧ (EDITION_CONFIG e).startSec ≤ ts.sec ∧
        ts.sec ≤ (EDITION_CONFIG e).endSec := by
  cases e <;>
    simp [inEditionWindow, get_edition_time_window, tsLe, EDITION_CONFIG,
      Bool.and_eq_true, Bool.or_eq_true, decide_eq_true_eq] <;>
    omega

lemma mem_get_eligible (today : Nat) (e : Edition) (rows : List NewsRow)
    (item : NewsItem) (h : item ∈ get_eligible_candidates today e rows) :
    ∃ r, r ∈ rows ∧ item = rowToItem r ∧
      eligibleWhere ⟨today, (EDITION_CONFIG e).startSec⟩
        ⟨today, (EDITION_CONFIG e).endSec⟩ r = some true := by
  simp only [get_eligible_candidates] at h
  rw [List.mem_map] at h
  obtain ⟨r, hr, rfl⟩ := h
  have hr2 := (sortDescBy_perm _ _).mem_iff.mp hr
  rw [List.mem_filter] at hr2
  refine ⟨r, hr2.1, rfl, ?_⟩
  have hw := hr2.2
  simpa [get_edition_time_window] using hw

lemma resetStep_today (now : Timestamp) (r : NewsRow) (u : Timestamp)
    (hu : r.updated_at = some u) (hd : u.day = now.day) :
    resetStep now r = r := by
  rw [resetStep, if_neg]
  intro hst
  rw [staleCond, hu] at hst
  simp at hst
  omega

lemma resetStep_idem (now : Timestamp) (r : NewsRow) :
    resetStep now (resetStep now r) = resetStep now r := by
  by_cases h : staleCond now.day r = true
  · have h1 : resetStep now r = resetRow now r := by rw [resetStep, if_pos h]
    rw [h1, resetStep, if_neg]
    simp [staleCond, resetRow]
  · have h1 : resetStep now r = r := by rw [resetStep, if_neg h]
    rw [h1, h1]

lemma reset_stale_queue_idem (now : Timestamp) (rows : List NewsRow) :
    (reset_stale_queue now (reset_stale_queue now rows).1).1 =
      (reset_stale_queue now rows).1 := by
  simp only [reset_stale_queue, List.map_map]
  exact List.map_congr_left (fun r _ => resetStep_idem now r)

/-- C1: the fetch query does not treat an absent (NULL) review status as
equivalent to 'none'.  nullStatusRow satisfies every other eligibility
condition of the morning window of day 100 — witnessed by the identical row
with the explicit 'none' status being returned — yet with the NULL status the
query returns nothing, because `expert_review_status != 'skipped'` evaluates
to UNKNOWN on NULL under SQLite's three-valued logic, defeating the
`OR expert_review_status IS NULL` disjunct two lines above it. -/
theorem nullStatusExcluded :
    nullStatusRow.expert_review_status = none ∧
    noneStatusRow = { nullStatusRow with expert_review_status := some "none" } ∧
    get_eligible_candidates 100 .morning [noneStatusRow] = [rowToItem noneStatusRow] ∧
    get_eligible_candidates 100 .morning [nullStatusRow] = [] := by
  decide

/-- C2: counterexample — four candidates sharing one source, with
target_count 10, yield only three selected items, so balance_categories does
not always return exactly `len(candidates)` items when
`len(candidates) < target_count`: the per-source cap of 3 discards the
fourth. -/
theorem balanceShortCex :
    sameSourceList.length < 10 ∧
    (balance_categories sameSourceList 10).length ≠ sameSourceList.length := by
  decide

/-- C2 (amended): when `len(candidates) < target_count`, balance_categories
returns at most `len(candidates)` items, each drawn from the input without
duplication and without padding (the output is a permutation of a sublist of
the input); the count can be strictly smaller when the per-source cap
excludes items. -/
theorem balanceShortSubperm (l : List NewsItem) (t : Nat) (h : l.length < t) :
    balance_categories l t <+~ l ∧
      (balance_categories l t).length ≤ l.length :=
  ⟨balance_subperm_aux l t, (balance_subperm_aux l t).length_le⟩

/-- C2 witness: the amended statement instantiated at the four-candidate
single-source list with target 10. -/
theorem balanceShortSubperm_witness :
    sameSourceList.length < 10 ∧
    (balance_categories sameSourceList 10 <+~ sameSourceList ∧
      (balance_categories sameSourceList 10).length ≤ sameSourceList.length) :=
  ⟨by decide, balanceShortSubperm sameSourceList 10 (by decide)⟩

/-- C3: counterexample — on empty title and content every per-category count
is zero, yet categorize_news returns the first-declared category 정책, not
the default sentinel 기타: the `if scores` fallback never fires because the
score dict always holds the 7 fixed categories. -/
theorem categorizeDefaultCex :
    (∀ p ∈ CATEGORIES, p.2.countP (fun kw => strContains ("" ++ "") kw) = 0) ∧
    categorize_news "" "" ≠ "기타" := by
  decide

/-- C3 (amended): whenever all 7 per-category keyword counts are zero,
categorize_news returns the first-declared category 정책 (the all-zero tie is
broken by declaration order), never the 기타 sentinel. -/
theorem categorizeAllZeroFirst (title content : String)
    (h : ∀ p ∈ CATEGORIES,
        p.2.countP (fun kw => strContains (title ++ content) kw) = 0) :
    categorize_news title content = "정책" := by
  simp only [categorize_news]
  exact maxFirst_zero_cats _ (fun p => rfl) (fun p hp => h p hp)

/-- C3 witness: the amended statement instantiated at empty title and
content. -/
theorem categorizeAllZeroFirst_witness :
    (∀ p ∈ CATEGORIES, p.2.countP (fun kw => strContains ("" ++ "") kw) = 0) ∧
    categorize_news "" "" = "정책" :=
  ⟨by decide, categorizeAllZeroFirst "" "" (by decide)⟩

/-- C4: diversity caps of balance_categories — no single source contributes
more than 2 items to the phase-1 selection, and no more than 3 items to the
final result, for every input list and every target_count. -/
theorem sourceCaps (l : List NewsItem) (t : Nat) (s : String) :
    countSrc s (phase1Run l t).selected ≤ 2 ∧
      countSrc s (balance_categories l t) ≤ 3 := by
  have h1 := phase1Run_inv l t
  refine ⟨le_trans (h1 s).1 (h1 s).2, ?_⟩
  rw [balance_categories]
  split
  · exact le_trans (le_trans (h1 s).1 (h1 s).2) (by omega)
  · split
    · refine le_trans (countSrc_sublist (List.take_sublist _ _) s) ?_
      exact phase2_inv t _ _ _
        (fun s' => ⟨(h1 s').1, le_trans (h1 s').2 (by omega)⟩) s
    · exact le_trans (countSrc_sublist (List.take_sublist _ _) s)
        (le_trans (le_trans (h1 s).1 (h1 s).2) (by omega))

/-- C5: the three per-edition eligibility windows over published_at are
pairwise disjoint; a timestamp with time-of-day 22:30:00 lies in no edition's
window of its own date; and get_eligible_candidates never returns an item
published at 22:30:00 of the query date, for any edition. -/
theorem editionWindowsDisjoint :
    (∀ e1 e2 : Edition, ∀ d : Nat, ∀ ts : Timestamp, e1 ≠ e2 →
        ¬(inEditionWindow e1 d ts = true ∧ inEditionWindow e2 d ts = true)) ∧
    (∀ (e : Edition) (d : Nat),
        inEditionWindow e d ⟨d, 22 * 3600 + 30 * 60⟩ = false) ∧
    (∀ (e : Edition) (d : Nat) (rows : List NewsRow),
        ∀ item ∈ get_eligible_candidates d e rows,
          item.published_at ≠ some ⟨d, 22 * 3600 + 30 * 60⟩) := by
  refine ⟨?_, ?_, ?_⟩
  · intro e1 e2 d ts hne h
    obtain ⟨h1, h2⟩ := h
    rw [inEditionWindow_iff] at h1 h2
    cases e1 <;> cases e2 <;> simp [EDITION_CONFIG] at h1 h2 <;>
      first
        | exact hne rfl
        | omega
  · intro e d
    rw [Bool.eq_false_iff]
    intro hw
    rw [inEditionWindow_iff] at hw
    cases e <;> simp [EDITION_CONFIG] at hw <;> omega
  · intro e d rows item hmem heq
    obtain ⟨r, -, rfl, hw⟩ := mem_get_eligible d e rows item hmem
    obtain ⟨ts, hts, -, hle⟩ := eligibleWhere_window _ _ _ hw
    rw [show (rowToItem r).published_at = r.published_at from rfl, hts] at heq
    injection heq with heq2
    subst heq2
    cases e <;> simp [tsLe, EDITION_CONFIG] at hle <;> omega

/-- C5 witness: the disjointness applied to morning vs afternoon at a
concrete timestamp, and the no-22:30 guarantee applied to a store holding one
afternoon-eligible row. -/
theorem editionWindowsDisjoint_witness :
    ¬(inEditionWindow .morning 5 ⟨5, 100⟩ = true ∧
        inEditionWindow .afternoon 5 ⟨5, 100⟩ = true) ∧
    (rowToItem afternoonRow).published_at ≠ some ⟨100, 22 * 3600 + 30 * 60⟩ :=
  ⟨editionWindowsDisjoint.1 .morning .afternoon 5 ⟨5, 100⟩ (by decide),
   editionWindowsDisjoint.2.2 .afternoon 100 [afternoonRow]
     (rowToItem afternoonRow) (by decide)⟩

/-- C6: filter_news is pure and idempotent — re-filtering its own output
returns the same list, and the three annotations of every output record are
the stated functions of that record's own title, content and source. -/
theorem filterNewsPureIdem (l : List NewsItem) :
    filter_news (filter_news l) = filter_news l ∧
    ∀ n ∈ filter_news l,
      n.category = some (categorize_news n.original_title n.original_content) ∧
      n.is_domestic = some (is_domestic_news n.original_title n.original_content) ∧
      n.priority_score = some (sourcePriority n.source +
        (if is_domestic_news n.original_title n.original_content then 5 else 0)) :=
  ⟨filter_news_idem l, filter_news_annotations l⟩

/-- C6 witness: the statement instantiated at a one-record list whose record
passes both gates. -/
theorem filterNewsPureIdem_witness :
    filter_news (filter_news [plainItem]) = filter_news [plainItem] ∧
    ((annotate plainItem).category =
        some (categorize_news (annotate plainItem).original_title
          (annotate plainItem).original_content) ∧
      (annotate plainItem).is_domestic =
        some (is_domestic_news (annotate plainItem).original_title
          (annotate plainItem).original_content) ∧
      (annotate plainItem).priority_score =
        some (sourcePriority (annotate plainItem).source +
          (if is_domestic_news (annotate plainItem).original_title
              (annotate plainItem).original_content then 5 else 0))) :=
  ⟨(filterNewsPureIdem [plainItem]).1,
   (filterNewsPureIdem [plainItem]).2 (annotate plainItem) (by decide)⟩

/-- C7: within one run_edition_selection call the stale-queue reset never
mutates a row whose updated_at date equals today, and the reset precedes the
candidate fetch: running the orchestration on an already-reset store yields
the same selected ids, because the fetch only ever sees the post-reset
state. -/
theorem resetUntouchedBeforeFetch (now : Timestamp) :
    (∀ (r : NewsRow) (u : Timestamp), r.updated_at = some u →
        u.day = now.day → resetStep now r = r) ∧
    (∀ (e : Option Edition) (rows : List NewsRow),
        (run_edition_selection e now rows).2.selected_ids =
          (run_edition_selection e now (reset_stale_queue now rows).1).2.selected_ids) := by
  refine ⟨resetStep_today now, ?_⟩
  intro e rows
  simp only [run_edition_selection]
  rw [reset_stale_queue_idem]

/-- C7 witness: the preservation applied to a queued_today row updated on day
100 with the clock on day 100, and the reset-absorption applied to the empty
store. -/
theorem resetUntouchedBeforeFetch_witness :
    resetStep ⟨100, 500⟩ todayQueuedRow = todayQueuedRow ∧
    (run_edition_selection (some .morning) ⟨100, 500⟩ []).2.selected_ids =
      (run_edition_selection (some .morning) ⟨100, 500⟩
          (reset_stale_queue ⟨100, 500⟩ []).1).2.selected_ids :=
  ⟨(resetUntouchedBeforeFetch ⟨100, 500⟩).1 todayQueuedRow ⟨100, 50⟩ rfl rfl,
   (resetUntouchedBeforeFetch ⟨100, 500⟩).2 (some .morning) []⟩

/-- C8: run_edition_selection is deterministic — for one store state and one
wall-clock instant, two runs with the same edition argument select the same
ids in the same order. -/
theorem runDeterministic (e : Option Edition) (now : Timestamp)
    (rows1 rows2 : List NewsRow) (h : rows1 = rows2) :
    (run_edition_selection e now rows1).2.selected_ids =
      (run_edition_selection e now rows2).2.selected_ids := by
  rw [h]

/-- C8 witness: the determinism applied to one concrete store and clock. -/
theorem runDeterministic_witness :
    (run_edition_selection (some .evening) ⟨100, 60000⟩ [afternoonRow]).2.selected_ids =
      (run_edition_selection (some .evening) ⟨100, 60000⟩ [afternoonRow]).2.selected_ids :=
  runDeterministic (some .evening) ⟨100, 60000⟩ [afternoonRow] [afternoonRow] rfl

/-- C9: a run whose fetch finds zero eligible candidates completes normally
with an empty id list, selected_count 0 and updated_count 0, and its commit
step leaves the store exactly as the reset step left it. -/
theorem runZeroCandidates (e : Edition) (now : Timestamp) (rows : List NewsRow)
    (h : get_eligible_candidates now.day e (reset_stale_queue now rows).1 = []) :
    (run_edition_selection (some e) now rows).2.selected_ids = [] ∧
    (run_edition_selection (some e) now rows).2.selected_count = 0 ∧
    (run_edition_selection (some e) now rows).2.updated_count = 0 ∧
    (run_edition_selection (some e) now rows).1 = (reset_stale_queue now rows).1 := by
  have hsel : select_edition_news now.day e (reset_stale_queue now rows).1 10 = [] := by
    simp only [select_edition_news]
    rw [h]
    simp
  simp [run_edition_selection, hsel, update_selected_status]

/-- C9 witness: the statement instantiated at the empty store, whose fetch
trivially returns no candidate. -/
theorem runZeroCandidates_witness :
    get_eligible_candidates (Timestamp.mk 100 0).day .morning
        (reset_stale_queue ⟨100, 0⟩ []).1 = [] ∧
    ((run_edition_selection (some .morning) ⟨100, 0⟩ []).2.selected_ids = [] ∧
      (run_edition_selection (some .morning) ⟨100, 0⟩ []).2.selected_count = 0 ∧
      (run_edition_selection (some .morning) ⟨100, 0⟩ []).2.updated_count = 0 ∧
      (run_edition_selection (some .morning) ⟨100, 0⟩ []).1 =
        (reset_stale_queue ⟨100, 0⟩ []).1) :=
  ⟨rfl, runZeroCandidates .morning ⟨100, 0⟩ [] rfl⟩

/-- C10: filter_news writes only the three annotations — every other field
of a returned record equals the corresponding input record's — and its output
is exactly the in-order subsequence of input records passing both gates, each
annotated. -/
theorem filterNewsFrame (l : List NewsItem) :
    filter_news l = (l.filter passes_gates).map annotate ∧
    ∀ n : NewsItem,
      (annotate n).id = n.id ∧
      (annotate n).original_title = n.original_title ∧
      (annotate n).original_content = n.original_content ∧
      (annotate n).published_at = n.published_at ∧
      (annotate n).source = n.source :=
  ⟨filter_news_eq_filterMap l, fun n => ⟨rfl, rfl, rfl, rfl, rfl⟩⟩

end NewsPipeline
